import Mathlib

/-!
Shallow embedding of the `geocolor` package: the two map facade classes
`geocolor.geocolor.Map` (over ipyleaflet) and `geocolor.foliumap.Map`
(over folium), together with the vector-ingestion helpers they define.

Python methods become Lean functions from an explicit map state to a pair
of the new state and an `Except` outcome; a Python `raise` that happens
after the method has already mutated the widget is modelled by returning
the mutated state together with the error, so non-atomic failures are
visible.  Calls into the external libraries (geopandas file reading and
reprojection, `os.path.exists`, the `ipyleaflet.basemaps` registry) are
parameters of an `Env` record: they are collaborators, not code of this
repository.  Coordinates are rationals.
-/

namespace Geocolor

/-- One GeoJSON feature: its coordinate pairs (longitude, latitude).
Attribute mappings are never inspected by the repository's code and are
omitted. -/
structure Feature where
  coords : List (ℚ × ℚ)
deriving DecidableEq

/-- A raw GeoJSON dictionary such as
`\x7b"type": "FeatureCollection", "features": [...]\x7d`:
the `"type"` tag and the feature list. -/
structure GeoDict where
  gtype : String
  features : List Feature
deriving DecidableEq

/-- A `geopandas.GeoDataFrame`: its features plus the EPSG code of its
coordinate reference system. -/
structure GeoDataFrame where
  features : List Feature
  epsg : Nat
deriving DecidableEq

/-- A hover style dictionary `\x7b"color": ..., "fillOpacity": ...\x7d`. -/
structure HoverStyle where
  color : String
  fillOpacity : ℚ
deriving DecidableEq

/-- The runtime kinds a vector-ingestion argument can have: a file-path
string, a GeoJSON dictionary, a GeoDataFrame, or (standing for every
unsupported kind, per the spec's example) an integer. -/
inductive Data
  | str (s : String)
  | dict (d : GeoDict)
  | gdf (g : GeoDataFrame)
  | intVal (n : Int)
deriving DecidableEq

/-- `True` exactly on the `str` constructor (Python `isinstance(data, str)`). -/
def Data.isStr : Data → Bool
  | .str _ => true
  | _ => false

/-- `True` exactly on the `dict` constructor (Python `isinstance(data, dict)`). -/
def Data.isDict : Data → Bool
  | .dict _ => true
  | _ => false

/-- The external collaborators: `gpd.read_file` (`none` models the
file-not-found / parse error raised by geopandas), the reprojection math
behind `gdf.to_crs(epsg=4326)`, `os.path.exists`, and the
`ipyleaflet.basemaps` registry resolving a basemap name to a built tile
URL (`none` models the AttributeError raised when
`eval(f"ipyleaflet.basemaps.\x7bname\x7d")` finds no such entry). -/
structure Env where
  readFile : String → Option GeoDataFrame
  reprojectTo4326 : List Feature → Nat → List Feature
  pathExists : String → Bool
  basemaps : String → Option String

/-- `gdf.to_crs(epsg=4326)`: reproject the features, record EPSG 4326. -/
def toCrs4326 (env : Env) (g : GeoDataFrame) : GeoDataFrame :=
  ⟨env.reprojectTo4326 g.features g.epsg, 4326⟩

/-- `gdf.__geo_interface__`: the GeoDataFrame as a GeoJSON
FeatureCollection dictionary. -/
def geoInterface (g : GeoDataFrame) : GeoDict :=
  ⟨"FeatureCollection", g.features⟩

/-- All coordinate pairs of a feature list, in order. -/
def allCoords (fs : List Feature) : List (ℚ × ℚ) :=
  fs.foldr (fun f acc => f.coords ++ acc) []

/-- Result of `gdf.total_bounds`: geopandas returns the box
(minx, miny, maxx, maxy), or an all-NaN array when the frame holds no
coordinates. -/
inductive BoundsVal
  | nan
  | box (minx miny maxx maxy : ℚ)
deriving DecidableEq

/-- `gdf.total_bounds` over the embedded coordinates. -/
def totalBounds (g : GeoDataFrame) : BoundsVal :=
  match allCoords g.features with
  | [] => .nan
  | c :: cs =>
    let r := cs.foldl
      (fun (acc : ℚ × ℚ × ℚ × ℚ) (p : ℚ × ℚ) =>
        (min acc.1 p.1, min acc.2.1 p.2, max acc.2.2.1 p.1, max acc.2.2.2 p.2))
      (c.1, c.2, c.1, c.2)
    .box r.1 r.2.1 r.2.2.1 r.2.2.2

/-- Argument passed to `ipyleaflet`'s `fit_bounds`: the southwest and
northeast corners `[[miny, minx], [maxy, maxx]]`, or NaN corners when
`total_bounds` was all-NaN. -/
inductive FitTarget
  | corners (sw ne : ℚ × ℚ)
  | nanBounds
deriving DecidableEq

/-- The `[[bounds[1], bounds[0]], [bounds[3], bounds[2]]]` reordering in
`geocolor.Map.add_geojson`. -/
def fitFromBounds : BoundsVal → FitTarget
  | .nan => .nanBounds
  | .box minx miny maxx maxy => .corners (miny, minx) (maxy, maxx)

/-- Python exceptions the embedded methods can surface. -/
inductive PyError
  | valueError (msg : String)
  | keyError (key : String)
  | unboundLocal (name : String)
  | attrError (name : String)
  | ioError (path : String)
deriving DecidableEq

/-- A layer attached to the ipyleaflet map: a `TileLayer` (url, name) or a
`GeoJSON` layer (data, hover_style as passed to the constructor). -/
inductive ILayer
  | tile (url name : String)
  | geojson (data : GeoDict) (hover : Option HoverStyle)
deriving DecidableEq

/-- State of a `geocolor.geocolor.Map`: viewport (center, zoom), widget
height, attached layers, the last `fit_bounds` argument if any, and the
number of attached controls. -/
structure IMapState where
  center : ℚ × ℚ
  zoom : Nat
  height : String
  layers : List ILayer
  fitted : Option FitTarget
  controls : Nat
deriving DecidableEq

/-- `geocolor.geocolor.Map.__init__` with its default arguments
`center=[20, 0], zoom=2, height="600px"`. -/
def IMapDefault : IMapState :=
  ⟨(20, 0), 2, "600px", [], none, 0⟩

/-- Default hover style of the ipyleaflet variant's `add_geojson`. -/
def ipyDefaultHover : HoverStyle :=
  ⟨"red", 1/5⟩

/-- `geocolor.geocolor.Map.add_basemap`: resolve the name through the
`ipyleaflet.basemaps` registry and attach a `TileLayer` carrying the
built URL and the basemap name; an unresolved name surfaces the
AttributeError of the dynamic lookup. -/
def IMap.add_basemap (env : Env) (st : IMapState) (basemap : String) :
    IMapState × Except PyError Unit :=
  match env.basemaps basemap with
  | none => (st, .error (.attrError basemap))
  | some url =>
    ({ st with layers := st.layers ++ [.tile url basemap] }, .ok ())

/-- Python `str.upper()`: per-character ASCII uppercasing. -/
def upperString (s : String) : String :=
  ⟨s.data.map Char.toUpper⟩

/-- Python `str.lower()`: per-character ASCII lowercasing. -/
def lowerString (s : String) : String :=
  ⟨s.data.map Char.toLower⟩

/-- The fixed `map_types` dictionary of
`geocolor.geocolor.Map.add_google_map`, as a lookup returning `none` on
the keys that raise `KeyError`. -/
def map_types (s : String) : Option String :=
  if s = "ROADMAP" then some "m"
  else if s = "SATELLITE" then some "s"
  else if s = "HYBRID" then some "y"
  else if s = "TERRAIN" then some "p"
  else none

/-- The Google tile URL f-string of `add_google_map`, applied to the
mapped single-letter code after `.lower()`. -/
def googleUrl (code : String) : String :=
  "https://mt1.google.com/vt/lyrs=" ++ lowerString code ++
    "&x=\x7bx\x7d&y=\x7by\x7d&z=\x7bz\x7d"

/-- `geocolor.geocolor.Map.add_google_map`: uppercase the argument, look
it up in `map_types` (KeyError when absent), and attach a `TileLayer`
named "Google Map" with the built URL. -/
def IMap.add_google_map (st : IMapState) (map_type : String) :
    IMapState × Except PyError Unit :=
  match map_types (upperString map_type) with
  | none => (st, .error (.keyError (upperString map_type)))
  | some code =>
    ({ st with layers := st.layers ++ [.tile (googleUrl code) "Google Map"] },
      .ok ())

/-- `geocolor.geocolor.Map.add_geojson`.  On the string branch `gdf` is
bound by `gpd.read_file`, the layer is attached, and `zoom_to_layer`
fits the map to `gdf.total_bounds`.  On the dict branch the layer is
attached but `gdf` was never assigned, so the `zoom_to_layer` block
raises `UnboundLocalError` on `gdf.total_bounds` after the mutation.
Any other argument kind raises `ValueError`. -/
def IMap.add_geojson (env : Env) (st : IMapState) (data : Data)
    (zoom_to_layer : Bool) (hover_style : Option HoverStyle) :
    IMapState × Except PyError Unit :=
  let hs := hover_style.getD ipyDefaultHover
  match data with
  | .str s =>
    match env.readFile s with
    | none => (st, .error (.ioError s))
    | some gdf =>
      let st1 := { st with
        layers := st.layers ++ [.geojson (geoInterface gdf) (some hs)] }
      if zoom_to_layer then
        ({ st1 with fitted := some (fitFromBounds (totalBounds gdf)) }, .ok ())
      else
        (st1, .ok ())
  | .dict d =>
    let st1 := { st with layers := st.layers ++ [.geojson d (some hs)] }
    if zoom_to_layer then
      (st1, .error (.unboundLocal "gdf"))
    else
      (st1, .ok ())
  | _ => (st, .error (.valueError "Unsupported data type for GeoJSON input."))

/-- `geocolor.geocolor.Map.add_gdf`: reproject to EPSG 4326, take the geo
interface, delegate to `add_geojson` with the dictionary (the kwargs
`zoom_to_layer` / `hover_style` pass through). -/
def IMap.add_gdf (env : Env) (st : IMapState) (gdf : GeoDataFrame)
    (zoom_to_layer : Bool) (hover_style : Option HoverStyle) :
    IMapState × Except PyError Unit :=
  IMap.add_geojson env st (.dict (geoInterface (toCrs4326 env gdf)))
    zoom_to_layer hover_style

/-- `geocolor.geocolor.Map.add_shp`: read the shapefile, reproject, take
the geo interface, delegate to `add_geojson` with the dictionary. -/
def IMap.add_shp (env : Env) (st : IMapState) (data : String)
    (zoom_to_layer : Bool) (hover_style : Option HoverStyle) :
    IMapState × Except PyError Unit :=
  match env.readFile data with
  | none => (st, .error (.ioError data))
  | some gdf =>
    IMap.add_geojson env st (.dict (geoInterface (toCrs4326 env gdf)))
      zoom_to_layer hover_style

/-- `geocolor.geocolor.Map.add_vector`: route on the runtime kind of the
argument (`str` is read into a GeoDataFrame then `add_gdf`; GeoDataFrame
goes to `add_gdf`; dict goes to `add_geojson`); anything else raises
`ValueError("Invalid data type")`. -/
def IMap.add_vector (env : Env) (st : IMapState) (data : Data)
    (zoom_to_layer : Bool) (hover_style : Option HoverStyle) :
    IMapState × Except PyError Unit :=
  match data with
  | .str s =>
    match env.readFile s with
    | none => (st, .error (.ioError s))
    | some gdf => IMap.add_gdf env st gdf zoom_to_layer hover_style
  | .gdf g => IMap.add_gdf env st g zoom_to_layer hover_style
  | .dict d => IMap.add_geojson env st (.dict d) zoom_to_layer hover_style
  | .intVal _ => (st, .error (.valueError "Invalid data type"))

/-- `geocolor.geocolor.Map.add_layer_control`: attach one more
`LayersControl`. -/
def IMap.add_layer_control (st : IMapState) : IMapState × Except PyError Unit :=
  ({ st with controls := st.controls + 1 }, .ok ())

/-- A child attached to the folium map: a named built-in `folium.TileLayer`,
a `localtileserver` tile layer built from a URL or local path, a
`folium.GeoJson` layer (its constructor receives only `data` and the
passthrough kwargs, so the hover field records what was actually passed),
a `SideBySideLayers` plugin over two tile layers, or a `LayerControl`. -/
inductive FLayer
  | tile (name : String) (overlay : Bool)
  | localTile (source : String)
  | geojson (data : GeoDict) (hover : Option HoverStyle)
  | sideBySide (left right : FLayer)
  | control
deriving DecidableEq

/-- State of a `geocolor.foliumap.Map`: the initial location and zoom
(no method of the class ever changes them) and the attached children. -/
structure FMapState where
  location : ℚ × ℚ
  zoomStart : Nat
  children : List FLayer
deriving DecidableEq

/-- `geocolor.foliumap.Map.__init__` with its defaults
`center=(0, 0), zoom=2`. -/
def FMapDefault : FMapState :=
  ⟨(0, 0), 2, []⟩

/-- Default hover style the folium variant's `add_geojson` computes for
its `hover_style` argument.  The source then never uses the variable:
`folium.GeoJson(data=geojson, **kwargs)` is called without it. -/
def foliumDefaultHover : HoverStyle :=
  ⟨"yellow", 1/5⟩

/-- `geocolor.foliumap.Map.add_geojson`.  String input is read with
`gpd.read_file` and its geo interface attached; dict input is attached
as is.  The `hover_style` default is computed but never passed to the
`folium.GeoJson` constructor, so the attached layer carries no hover
style.  `zoom_to_layer` is accepted and ignored: no branch of the method
touches the viewport.  For any other input kind the local `geojson` was
never assigned and `folium.GeoJson(data=geojson, ...)` raises
`UnboundLocalError` before anything is attached. -/
def FMap.add_geojson (env : Env) (st : FMapState) (data : Data)
    (zoom_to_layer : Bool) (hover_style : Option HoverStyle) :
    FMapState × Except PyError Unit :=
  match data with
  | .str s =>
    match env.readFile s with
    | none => (st, .error (.ioError s))
    | some gdf =>
      ({ st with children := st.children ++ [.geojson (geoInterface gdf) none] },
        .ok ())
  | .dict d =>
    ({ st with children := st.children ++ [.geojson d none] }, .ok ())
  | _ => (st, .error (.unboundLocal "geojson"))

/-- `geocolor.foliumap.Map.add_gdf`: reproject to EPSG 4326, take the geo
interface, delegate to `add_geojson` (kwargs pass through). -/
def FMap.add_gdf (env : Env) (st : FMapState) (gdf : GeoDataFrame)
    (zoom_to_layer : Bool) (hover_style : Option HoverStyle) :
    FMapState × Except PyError Unit :=
  FMap.add_geojson env st (.dict (geoInterface (toCrs4326 env gdf)))
    zoom_to_layer hover_style

/-- `geocolor.foliumap.Map.add_shp`: read the shapefile, reproject, take
the geo interface, delegate to `add_geojson`. -/
def FMap.add_shp (env : Env) (st : FMapState) (data : String)
    (zoom_to_layer : Bool) (hover_style : Option HoverStyle) :
    FMapState × Except PyError Unit :=
  match env.readFile data with
  | none => (st, .error (.ioError data))
  | some gdf =>
    FMap.add_geojson env st (.dict (geoInterface (toCrs4326 env gdf)))
      zoom_to_layer hover_style

/-- `geocolor.foliumap.Map.add_vector`: route on the runtime kind exactly
as the ipyleaflet variant does; anything unsupported raises
`ValueError("Invalid data type")`. -/
def FMap.add_vector (env : Env) (st : FMapState) (data : Data)
    (zoom_to_layer : Bool) (hover_style : Option HoverStyle) :
    FMapState × Except PyError Unit :=
  match data with
  | .str s =>
    match env.readFile s with
    | none => (st, .error (.ioError s))
    | some gdf => FMap.add_gdf env st gdf zoom_to_layer hover_style
  | .gdf g => FMap.add_gdf env st g zoom_to_layer hover_style
  | .dict d => FMap.add_geojson env st (.dict d) zoom_to_layer hover_style
  | .intVal _ => (st, .error (.valueError "Invalid data type"))

/-- `geocolor.foliumap.Map.add_layer_control`: attach one
`folium.LayerControl`. -/
def FMap.add_layer_control (st : FMapState) : FMapState × Except PyError Unit :=
  ({ st with children := st.children ++ [.control] }, .ok ())

/-- Python `s.startswith(p)`: `p`'s characters are a prefix of `s`'s. -/
def pyStartsWith (s p : String) : Bool :=
  p.data.isPrefixOf s.data

/-- The per-side resolution inside `add_split_map`: a string starting with
"http" or naming an existing path becomes a `localtileserver` tile layer,
anything else a named `folium.TileLayer` with `overlay=True`. -/
def resolveSplitLayer (env : Env) (source : String) : FLayer :=
  if pyStartsWith source "http" || env.pathExists source then
    .localTile source
  else
    .tile source true

/-- `geocolor.foliumap.Map.add_split_map`: resolve both sides, build the
`SideBySideLayers` plugin over them, and attach the left layer, the
right layer and the plugin, in that order. -/
def FMap.add_split_map (env : Env) (st : FMapState) (left right : String) :
    FMapState × Except PyError Unit :=
  let layer_left := resolveSplitLayer env left
  let layer_right := resolveSplitLayer env right
  let sbs := FLayer.sideBySide layer_left layer_right
  ({ st with children := st.children ++ [layer_left, layer_right, sbs] },
    .ok ())

/-- Concrete test fixtures used by the witness theorems. -/
def sampleFeature : Feature :=
  ⟨[(10, 20), (30, 40)]⟩

def sampleGDF : GeoDataFrame :=
  ⟨[sampleFeature], 3857⟩

/-- The empty FeatureCollection dictionary
`\x7b"type": "FeatureCollection", "features": []\x7d`. -/
def emptyFC : GeoDict :=
  ⟨"FeatureCollection", []⟩

/-- A one-feature FeatureCollection dictionary. -/
def oneFeatureFC : GeoDict :=
  ⟨"FeatureCollection", [sampleFeature]⟩

/-- A concrete environment: one readable file "data.shp", one existing
local path "local.tif", the identity as reprojection, and a registry
holding only "OpenStreetMap". -/
def testEnv : Env where
  readFile := fun s => if s = "data.shp" then some sampleGDF else none
  reprojectTo4326 := fun fs _ => fs
  pathExists := fun s => if s = "local.tif" then true else false
  basemaps := fun s =>
    if s = "OpenStreetMap" then
      some "https://tile.openstreetmap.org/\x7bz\x7d/\x7bx\x7d/\x7by\x7d.png"
    else none

/-- C1: evaluating both variants at the empty FeatureCollection with the
default `zoom_to_layer=True` shows the claim fails on the ipyleaflet
variant: `add_vector` attaches the zero-feature layer and then raises
`UnboundLocalError` on `gdf.total_bounds` instead of succeeding, while
the folium variant does succeed with the viewport (location, zoom)
unchanged. -/
theorem c1_empty_collection_code_eval :
    IMap.add_vector testEnv IMapDefault (.dict emptyFC) true none
      = ({ IMapDefault with
            layers := [.geojson emptyFC (some ipyDefaultHover)] },
          .error (.unboundLocal "gdf"))
  ∧ FMap.add_vector testEnv FMapDefault (.dict emptyFC) true none
      = ({ FMapDefault with children := [.geojson emptyFC none] }, .ok ())
  ∧ emptyFC.features.length = 0 :=
  ⟨rfl, rfl, rfl⟩

/-- C2: in the ipyleaflet variant, for every dict input, `add_geojson`
with `zoom_to_layer=True` (its default) appends the GeoJSON layer to the
map and then raises `UnboundLocalError` on `gdf`; consequently
`add_gdf` (for every GeoDataFrame) and `add_shp` (whenever the file
reads) with default options mutate the layer collection and then fail:
the failure is not atomic. -/
theorem c2_dict_add_attaches_then_raises (env : Env) (st : IMapState)
    (d : GeoDict) (g : GeoDataFrame) (path : String) (hs : Option HoverStyle)
    (hread : env.readFile path = some g) :
    IMap.add_geojson env st (.dict d) true hs
      = ({ st with
            layers := st.layers ++ [.geojson d (some (hs.getD ipyDefaultHover))] },
          .error (.unboundLocal "gdf"))
  ∧ IMap.add_gdf env st g true hs
      = ({ st with
            layers := st.layers ++ [.geojson (geoInterface (toCrs4326 env g))
              (some (hs.getD ipyDefaultHover))] },
          .error (.unboundLocal "gdf"))
  ∧ IMap.add_shp env st path true hs
      = ({ st with
            layers := st.layers ++ [.geojson (geoInterface (toCrs4326 env g))
              (some (hs.getD ipyDefaultHover))] },
          .error (.unboundLocal "gdf")) := by
  refine ⟨?_, ?_, ?_⟩ <;>
    simp [IMap.add_geojson, IMap.add_gdf, IMap.add_shp, hread]

theorem c2_dict_add_attaches_then_raises_witness :
    testEnv.readFile "data.shp" = some sampleGDF ∧
    (IMap.add_geojson testEnv IMapDefault (.dict emptyFC) true none
      = ({ IMapDefault with
            layers := [.geojson emptyFC (some ipyDefaultHover)] },
          .error (.unboundLocal "gdf"))
  ∧ IMap.add_gdf testEnv IMapDefault sampleGDF true none
      = ({ IMapDefault with
            layers := [.geojson (geoInterface (toCrs4326 testEnv sampleGDF))
              (some ipyDefaultHover)] },
          .error (.unboundLocal "gdf"))
  ∧ IMap.add_shp testEnv IMapDefault "data.shp" true none
      = ({ IMapDefault with
            layers := [.geojson (geoInterface (toCrs4326 testEnv sampleGDF))
              (some ipyDefaultHover)] },
          .error (.unboundLocal "gdf"))) :=
  ⟨rfl, c2_dict_add_attaches_then_raises testEnv IMapDefault emptyFC sampleGDF
    "data.shp" none rfl⟩

/-- C3: `add_vector` on an integer raises `ValueError("Invalid data
type")` in both variants, and the ipyleaflet `add_geojson` raises
`ValueError` too; but the claim's extension to every other
vector-ingestion entry point fails: the folium `add_geojson` raises
`UnboundLocalError` on the never-assigned local `geojson` instead of the
`ValueError` its own docstring promises. -/
theorem c3_invalid_input_kind_code_eval (env : Env) (ist : IMapState)
    (fmst : FMapState) (n : Int) (z : Bool) (hs : Option HoverStyle) :
    IMap.add_vector env ist (.intVal n) z hs
      = (ist, .error (.valueError "Invalid data type"))
  ∧ FMap.add_vector env fmst (.intVal n) z hs
      = (fmst, .error (.valueError "Invalid data type"))
  ∧ IMap.add_geojson env ist (.intVal n) z hs
      = (ist, .error (.valueError "Unsupported data type for GeoJSON input."))
  ∧ FMap.add_geojson env fmst (.intVal n) z hs
      = (fmst, .error (.unboundLocal "geojson")) :=
  ⟨rfl, rfl, rfl, rfl⟩

/-- C4: `add_google_map` uppercases its argument and looks it up in the
fixed four-entry `map_types` mapping, so any name whose uppercasing is
not a key fails with a `KeyError` (the UnknownMapType error), and
"roadmap" and "ROADMAP" attach tile layers with identical URLs; the
attached URL is built from the mapped single-letter code for each of the
four logical names. -/
theorem c4_google_map_lookup (st : IMapState) (name : String)
    (hbad : map_types (upperString name) = none) :
    IMap.add_google_map st name = (st, .error (.keyError (upperString name)))
  ∧ IMap.add_google_map st "roadmap" = IMap.add_google_map st "ROADMAP"
  ∧ (IMap.add_google_map st "roadmap").1.layers
      = st.layers ++ [.tile (googleUrl "m") "Google Map"]
  ∧ (IMap.add_google_map st "SATELLITE").1.layers
      = st.layers ++ [.tile (googleUrl "s") "Google Map"]
  ∧ (IMap.add_google_map st "HYBRID").1.layers
      = st.layers ++ [.tile (googleUrl "y") "Google Map"]
  ∧ (IMap.add_google_map st "TERRAIN").1.layers
      = st.layers ++ [.tile (googleUrl "p") "Google Map"] := by
  refine ⟨?_, rfl, rfl, rfl, rfl, rfl⟩
  simp [IMap.add_google_map, hbad]

theorem c4_google_map_lookup_witness :
    map_types (upperString "bogus") = none ∧
    (IMap.add_google_map IMapDefault "bogus"
      = (IMapDefault, .error (.keyError (upperString "bogus")))
  ∧ IMap.add_google_map IMapDefault "roadmap"
      = IMap.add_google_map IMapDefault "ROADMAP"
  ∧ (IMap.add_google_map IMapDefault "roadmap").1.layers
      = IMapDefault.layers ++ [.tile (googleUrl "m") "Google Map"]
  ∧ (IMap.add_google_map IMapDefault "SATELLITE").1.layers
      = IMapDefault.layers ++ [.tile (googleUrl "s") "Google Map"]
  ∧ (IMap.add_google_map IMapDefault "HYBRID").1.layers
      = IMapDefault.layers ++ [.tile (googleUrl "y") "Google Map"]
  ∧ (IMap.add_google_map IMapDefault "TERRAIN").1.layers
      = IMapDefault.layers ++ [.tile (googleUrl "p") "Google Map"]) :=
  ⟨rfl, c4_google_map_lookup IMapDefault "bogus" rfl⟩

/-- C5: evaluating a vector-add of a non-empty collection with
`zoom_to_layer=True` shows the claim fails in both variants: the folium
variant attaches the layer and leaves the viewport exactly as it was
(the parameter is ignored, no bounding-box computation exists in the
method), and the ipyleaflet variant raises `UnboundLocalError` before
any `fit_bounds` call, leaving `fitted` at `none`. -/
theorem c5_zoom_to_layer_code_eval :
    oneFeatureFC.features ≠ []
  ∧ FMap.add_vector testEnv FMapDefault (.dict oneFeatureFC) true none
      = ({ FMapDefault with children := [.geojson oneFeatureFC none] }, .ok ())
  ∧ (FMap.add_vector testEnv FMapDefault (.dict oneFeatureFC) true none).1.location
      = FMapDefault.location
  ∧ (FMap.add_vector testEnv FMapDefault (.dict oneFeatureFC) true none).1.zoomStart
      = FMapDefault.zoomStart
  ∧ IMap.add_vector testEnv IMapDefault (.dict oneFeatureFC) true none
      = ({ IMapDefault with
            layers := [.geojson oneFeatureFC (some ipyDefaultHover)] },
          .error (.unboundLocal "gdf"))
  ∧ (IMap.add_vector testEnv IMapDefault (.dict oneFeatureFC) true none).1.fitted
      = none :=
  ⟨by decide, rfl, rfl, rfl, rfl, rfl⟩

/-- C6: evaluating a GeoJSON add with no hover style supplied shows the
claim fails in the folium variant: the ipyleaflet layer is constructed
with the red default hover style, but the folium layer carries no hover
style at all (the yellow default is computed and then never passed to
the `folium.GeoJson` constructor), so the attached folium layer differs
from the one the claim describes. -/
theorem c6_hover_style_defaults_code_eval :
    (IMap.add_geojson testEnv IMapDefault (.dict oneFeatureFC) false none).1.layers
      = [.geojson oneFeatureFC (some ipyDefaultHover)]
  ∧ ipyDefaultHover = ⟨"red", 1/5⟩
  ∧ foliumDefaultHover = ⟨"yellow", 1/5⟩
  ∧ (FMap.add_geojson testEnv FMapDefault (.dict oneFeatureFC) false none).1.children
      = [.geojson oneFeatureFC none]
  ∧ FLayer.geojson oneFeatureFC none
      ≠ FLayer.geojson oneFeatureFC (some foliumDefaultHover) :=
  ⟨rfl, rfl, rfl, rfl, by decide⟩

/-- C7: `add_basemap` resolves its argument through the basemap registry:
a registered name such as "OpenStreetMap" attaches exactly one tile
layer carrying the built URL and the basemap name, and any unregistered
name surfaces the lookup failure (the UnknownBasemap error) with the map
unchanged. -/
theorem c7_basemap_lookup (env : Env) (st : IMapState) (url name : String)
    (hreg : env.basemaps "OpenStreetMap" = some url)
    (hmiss : env.basemaps name = none) :
    IMap.add_basemap env st "OpenStreetMap"
      = ({ st with layers := st.layers ++ [.tile url "OpenStreetMap"] }, .ok ())
  ∧ (IMap.add_basemap env st "OpenStreetMap").1.layers.length
      = st.layers.length + 1
  ∧ IMap.add_basemap env st name = (st, .error (.attrError name)) := by
  refine ⟨?_, ?_, ?_⟩ <;> simp [IMap.add_basemap, hreg, hmiss]

theorem c7_basemap_lookup_witness :
    testEnv.basemaps "OpenStreetMap"
      = some "https://tile.openstreetmap.org/\x7bz\x7d/\x7bx\x7d/\x7by\x7d.png"
  ∧ testEnv.basemaps "NoSuchBasemap" = none
  ∧ (IMap.add_basemap testEnv IMapDefault "OpenStreetMap"
      = ({ IMapDefault with
            layers := [.tile
              "https://tile.openstreetmap.org/\x7bz\x7d/\x7bx\x7d/\x7by\x7d.png"
              "OpenStreetMap"] }, .ok ())
  ∧ (IMap.add_basemap testEnv IMapDefault "OpenStreetMap").1.layers.length
      = IMapDefault.layers.length + 1
  ∧ IMap.add_basemap testEnv IMapDefault "NoSuchBasemap"
      = (IMapDefault, .error (.attrError "NoSuchBasemap"))) :=
  ⟨rfl, rfl, c7_basemap_lookup testEnv IMapDefault
    "https://tile.openstreetmap.org/\x7bz\x7d/\x7bx\x7d/\x7by\x7d.png"
    "NoSuchBasemap" rfl rfl⟩

/-- C8: for one underlying geometry presented as a file path (read into a
GeoDataFrame), as the GeoDataFrame itself, and as the raw dictionary
obtained after reprojection to geographic coordinates, the three
`add_vector` calls of each variant attach layers carrying the same
coordinate data: the file-path and GeoDataFrame routes reproject with
`to_crs(epsg=4326)` before taking the geo interface, and the dictionary
route passes the (already geographic) dictionary through unchanged. -/
theorem c8_input_kind_equivalence (env : Env) (ist : IMapState)
    (fmst : FMapState) (path : String) (g : GeoDataFrame) (z : Bool)
    (hs : Option HoverStyle) (hread : env.readFile path = some g) :
    (IMap.add_vector env ist (.str path) z hs).1.layers
      = ist.layers ++ [.geojson (geoInterface (toCrs4326 env g))
          (some (hs.getD ipyDefaultHover))]
  ∧ (IMap.add_vector env ist (.gdf g) z hs).1.layers
      = ist.layers ++ [.geojson (geoInterface (toCrs4326 env g))
          (some (hs.getD ipyDefaultHover))]
  ∧ (IMap.add_vector env ist (.dict (geoInterface (toCrs4326 env g))) z hs).1.layers
      = ist.layers ++ [.geojson (geoInterface (toCrs4326 env g))
          (some (hs.getD ipyDefaultHover))]
  ∧ (FMap.add_vector env fmst (.str path) z hs).1.children
      = fmst.children ++ [.geojson (geoInterface (toCrs4326 env g)) none]
  ∧ (FMap.add_vector env fmst (.gdf g) z hs).1.children
      = fmst.children ++ [.geojson (geoInterface (toCrs4326 env g)) none]
  ∧ (FMap.add_vector env fmst (.dict (geoInterface (toCrs4326 env g))) z hs).1.children
      = fmst.children ++ [.geojson (geoInterface (toCrs4326 env g)) none] := by
  cases z <;> refine ⟨?_, ?_, ?_, ?_, ?_, ?_⟩ <;>
    simp [IMap.add_vector, IMap.add_gdf, IMap.add_geojson,
      FMap.add_vector, FMap.add_gdf, FMap.add_geojson, hread]

theorem c8_input_kind_equivalence_witness :
    testEnv.readFile "data.shp" = some sampleGDF
  ∧ ((IMap.add_vector testEnv IMapDefault (.str "data.shp") false none).1.layers
      = IMapDefault.layers ++ [.geojson (geoInterface (toCrs4326 testEnv sampleGDF))
          (some ipyDefaultHover)]
  ∧ (IMap.add_vector testEnv IMapDefault (.gdf sampleGDF) false none).1.layers
      = IMapDefault.layers ++ [.geojson (geoInterface (toCrs4326 testEnv sampleGDF))
          (some ipyDefaultHover)]
  ∧ (IMap.add_vector testEnv IMapDefault
        (.dict (geoInterface (toCrs4326 testEnv sampleGDF))) false none).1.layers
      = IMapDefault.layers ++ [.geojson (geoInterface (toCrs4326 testEnv sampleGDF))
          (some ipyDefaultHover)]
  ∧ (FMap.add_vector testEnv FMapDefault (.str "data.shp") false none).1.children
      = FMapDefault.children ++ [.geojson (geoInterface (toCrs4326 testEnv sampleGDF)) none]
  ∧ (FMap.add_vector testEnv FMapDefault (.gdf sampleGDF) false none).1.children
      = FMapDefault.children ++ [.geojson (geoInterface (toCrs4326 testEnv sampleGDF)) none]
  ∧ (FMap.add_vector testEnv FMapDefault
        (.dict (geoInterface (toCrs4326 testEnv sampleGDF))) false none).1.children
      = FMapDefault.children ++ [.geojson (geoInterface (toCrs4326 testEnv sampleGDF)) none]) :=
  ⟨rfl, c8_input_kind_equivalence testEnv IMapDefault FMapDefault
    "data.shp" sampleGDF false none rfl⟩

/-- C9: `add_split_map` resolves a side that starts with "http" or names
an existing local path to a direct (localtileserver) tile source and any
other side to a named built-in tile layer, then attaches exactly three
objects in order: the left layer, the right layer, and the side-by-side
composition of the two. -/
theorem c9_split_map (env : Env) (st : FMapState) (l1 l2 r1 : String)
    (h1 : (pyStartsWith l1 "http" || env.pathExists l1) = true)
    (h2 : env.pathExists l2 = true)
    (h3 : (pyStartsWith r1 "http" || env.pathExists r1) = false) :
    FMap.add_split_map env st l1 r1
      = ({ st with children := st.children ++
            [.localTile l1, .tile r1 true,
              .sideBySide (.localTile l1) (.tile r1 true)] }, .ok ())
  ∧ FMap.add_split_map env st l2 r1
      = ({ st with children := st.children ++
            [.localTile l2, .tile r1 true,
              .sideBySide (.localTile l2) (.tile r1 true)] }, .ok ())
  ∧ (FMap.add_split_map env st l1 r1).1.children.length
      = st.children.length + 3 := by
  refine ⟨?_, ?_, ?_⟩ <;>
    simp [FMap.add_split_map, resolveSplitLayer, h1, h2, h3]

theorem c9_split_map_witness :
    (pyStartsWith "https://example.com/t.tif" "http"
        || testEnv.pathExists "https://example.com/t.tif") = true
  ∧ testEnv.pathExists "local.tif" = true
  ∧ (pyStartsWith "openstreetmap" "http" || testEnv.pathExists "openstreetmap") = false
  ∧ (FMap.add_split_map testEnv FMapDefault "https://example.com/t.tif" "openstreetmap"
      = ({ FMapDefault with children :=
            [.localTile "https://example.com/t.tif", .tile "openstreetmap" true,
              .sideBySide (.localTile "https://example.com/t.tif")
                (.tile "openstreetmap" true)] }, .ok ())
  ∧ FMap.add_split_map testEnv FMapDefault "local.tif" "openstreetmap"
      = ({ FMapDefault with children :=
            [.localTile "local.tif", .tile "openstreetmap" true,
              .sideBySide (.localTile "local.tif") (.tile "openstreetmap" true)] },
          .ok ())
  ∧ (FMap.add_split_map testEnv FMapDefault "https://example.com/t.tif"
        "openstreetmap").1.children.length = FMapDefault.children.length + 3) :=
  ⟨by decide, rfl, by decide, c9_split_map testEnv FMapDefault
    "https://example.com/t.tif" "local.tif" "openstreetmap"
    (by decide) rfl (by decide)⟩

/-- C10: in the folium variant, `add_geojson` on data that is neither a
string nor a dict raises the `UnboundLocalError` of the never-assigned
local `geojson` (there being no else branch), not an
InvalidInputKind/ValueError, and leaves the map state unchanged: no
layer is attached. -/
theorem c10_folium_geojson_unbound (env : Env) (st : FMapState) (d : Data)
    (z : Bool) (hs : Option HoverStyle)
    (h1 : d.isStr = false) (h2 : d.isDict = false) :
    FMap.add_geojson env st d z hs = (st, .error (.unboundLocal "geojson")) := by
  cases d with
  | str s => simp [Data.isStr] at h1
  | dict g => simp [Data.isDict] at h2
  | gdf g => rfl
  | intVal n => rfl

theorem c10_folium_geojson_unbound_witness :
    Data.isStr (.intVal 7) = false
  ∧ Data.isDict (.intVal 7) = false
  ∧ FMap.add_geojson testEnv FMapDefault (.intVal 7) true none
      = (FMapDefault, .error (.unboundLocal "geojson")) :=
  ⟨rfl, rfl, c10_folium_geojson_unbound testEnv FMapDefault (.intVal 7)
    true none rfl rfl⟩

end Geocolor
